import Mathlib

/-!
Verification of the interplanetary-sim numerical core.

This file gives a shallow embedding in Lean 4 of the orbital-mechanics and
spacecraft-subsystem routines of the repository (OrbitalMechanics.js,
SpacecraftSystems.js, ManoeuvreNode.js, BaseSpacecraft.js,
TrajectoryPlanner.js) and proves theorems about them.

Modelling conventions:
* JavaScript numbers are modelled as real numbers.  `Number.isFinite` guards,
  which can only fail under IEEE-754 overflow, are vacuously true on ℝ and are
  noted in comments where the source has them.
* Division follows Lean's total-division convention (`x / 0 = 0`), matching a
  guarded use in the source (the degenerate cases are covered by the guards
  the source itself installs, which are embedded faithfully).
* Stateful methods become pure state-passing functions; a per-tick update loop
  becomes a fold over the list of per-tick inputs.
-/

namespace InterplanetarySim

/-- Three-component vector over the reals (THREE.Vector3). -/
@[ext]
structure Vec3 where
  x : ℝ
  y : ℝ
  z : ℝ

namespace Vec3

/-- THREE.Vector3.add. -/
def add (u v : Vec3) : Vec3 := ⟨u.x + v.x, u.y + v.y, u.z + v.z⟩

/-- THREE.Vector3.sub. -/
def sub (u v : Vec3) : Vec3 := ⟨u.x - v.x, u.y - v.y, u.z - v.z⟩

/-- THREE.Vector3.multiplyScalar. -/
def smul (c : ℝ) (v : Vec3) : Vec3 := ⟨c * v.x, c * v.y, c * v.z⟩

/-- THREE.Vector3.divideScalar. -/
noncomputable def divScalar (v : Vec3) (c : ℝ) : Vec3 := ⟨v.x / c, v.y / c, v.z / c⟩

/-- THREE.Vector3.length: the Euclidean norm. -/
noncomputable def length (v : Vec3) : ℝ := Real.sqrt (v.x ^ 2 + v.y ^ 2 + v.z ^ 2)

/-- THREE.Vector3.cross. -/
def cross (u v : Vec3) : Vec3 :=
  ⟨u.y * v.z - u.z * v.y, u.z * v.x - u.x * v.z, u.x * v.y - u.y * v.x⟩

/-- THREE.Vector3.normalize: divideScalar by the length. -/
noncomputable def normalize (v : Vec3) : Vec3 := divScalar v (length v)

end Vec3

/-- AU_TO_KM from src/utils/constants.js: one astronomical unit in kilometres. -/
def AU_TO_KM : ℝ := 149597870.7

/-- GRAVITATIONAL_PARAMETERS.sun from src/utils/constants.js, in m³/s². -/
def GRAVITATIONAL_PARAMETERS_sun : ℝ := 1.32712440018e20

/-!
## SpacecraftSystems.calculateFuelRequired and TrajectoryPlanner.calculateFuelRequired
-/

/-- SpacecraftSystems.calculateFuelRequired (SpacecraftSystems.js lines 422-427).
`isp` is `this.propulsion.main.specificImpulse` (350 under the default config);
`deltaV` is in km/s (hence the `* 1000`); the second source argument is named
`dryMass`.  There is no finiteness guard in this version. -/
noncomputable def SpacecraftSystems.calculateFuelRequired
    (isp deltaV dryMass : ℝ) : ℝ :=
  let exhaustVelocity := isp * 9.81
  let massRat := Real.exp (deltaV * 1000 / exhaustVelocity)
  dryMass * (massRat - 1)

/-- TrajectoryPlanner.calculateFuelRequired (TrajectoryPlanner.js lines 711-746).
`isp` and `dryMass` are resolved from the spacecraft-type switch (chemical
450/1000, ion 3000/800, nuclear 900/2000, custom from the UI); here they are
parameters.  The source guard `if (!isFinite(massRatio) || massRatio <= 1) return 0`
is embedded by its real-arithmetic part `massRatio ≤ 1` (a real exponential is
always finite). -/
noncomputable def TrajectoryPlanner.calculateFuelRequired
    (isp dryMass deltaV : ℝ) : ℝ :=
  let exhaustVelocity := isp * 9.81 / 1000
  let massRat := Real.exp (deltaV / exhaustVelocity)
  if massRat ≤ 1 then 0 else dryMass * (massRat - 1)

/-!
## BaseSpacecraft.integrateMotion
-/

/-- The position/velocity state owned by BaseSpacecraft (position in AU,
velocity in km/s). -/
structure MotionState where
  position : Vec3
  velocity : Vec3

/-- BaseSpacecraft.integrateMotion (BaseSpacecraft.js lines 387-394): the
velocity is updated with `acceleration * dt / 1000` (m/s² to km/s), then the
position is updated with the already-updated velocity times `dt / AU_TO_KM`
(km/s to AU). -/
noncomputable def integrateMotion (s : MotionState) (acceleration : Vec3) (dt : ℝ) :
    MotionState :=
  let deltaV := Vec3.smul (dt / 1000) acceleration
  let velocity := Vec3.add s.velocity deltaV
  let deltaP := Vec3.smul (dt / AU_TO_KM) velocity
  { position := Vec3.add s.position deltaP, velocity := velocity }

/-!
## OrbitalMechanics.calculateHohmannTransfer
-/

/-- Result record of OrbitalMechanics.calculateHohmannTransfer. -/
structure HohmannTransfer where
  departure : ℝ
  arrival : ℝ
  total : ℝ
  transferTime : ℝ

/-- OrbitalMechanics.calculateHohmannTransfer (OrbitalMechanics.js lines 47-72):
two-burn Hohmann transfer between circular orbits of radii `r1`, `r2` (km)
about the Sun. -/
noncomputable def calculateHohmannTransfer (r1 r2 : ℝ) : HohmannTransfer :=
  let mu := GRAVITATIONAL_PARAMETERS_sun / 1e9
  let v1 := Real.sqrt (mu / r1)
  let a_transfer := (r1 + r2) / 2
  let v_transfer1 := Real.sqrt (mu * (2 / r1 - 1 / a_transfer))
  let v_transfer2 := Real.sqrt (mu * (2 / r2 - 1 / a_transfer))
  let v2 := Real.sqrt (mu / r2)
  let dv1 := v_transfer1 - v1
  let dv2 := v2 - v_transfer2
  { departure := dv1
    arrival := dv2
    total := |dv1| + |dv2|
    transferTime := Real.pi * Real.sqrt (a_transfer ^ 3 / mu) / 86400 }

/-!
## OrbitalMechanics.calculateOrbitalElements
-/

/-- The classical orbital-elements record returned by
OrbitalMechanics.calculateOrbitalElements. -/
structure OrbitalElements where
  semiMajorAxis : ℝ
  eccentricity : ℝ
  inclination : ℝ
  periapsis : ℝ
  apoapsis : ℝ
  period : ℝ
  specificEnergy : ℝ

/-- The all-zero elements record returned on degenerate inputs. -/
def zeroElements : OrbitalElements := ⟨0, 0, 0, 0, 0, 0, 0⟩

/-- OrbitalMechanics.calculateOrbitalElements (OrbitalMechanics.js lines 75-139).
A missing (null) `position` or `velocity` argument is modelled with `Option`.
The source guards `!position || !velocity || !mu || mu === 0`, then `r === 0 ||
!isFinite(r) || !isFinite(v)`; over ℝ the `isFinite` parts are vacuous.  The
source's final `safeValue` wrapper (`isFinite(value) ? value : fallback`) is
the identity on ℝ and is therefore not written.  The inclination clamps
`h.z / |h|` into [−1, 1] before `acos`, exactly as
`Math.acos(Math.min(1, Math.max(-1, h.z / h.length())))`. -/
noncomputable def calculateOrbitalElements (position velocity : Option Vec3) (mu : ℝ) :
    OrbitalElements :=
  match position, velocity with
  | some pos, some vel =>
    if mu = 0 then zeroElements
    else
      let r := Vec3.length pos * AU_TO_KM
      let v := Vec3.length vel
      if r = 0 then zeroElements
      else
        let energy := v * v / 2 - mu / r
        let a := -mu / (2 * energy)
        let h := Vec3.cross pos vel
        let eVector := Vec3.sub (Vec3.smul (1 / mu) (Vec3.cross vel h)) (Vec3.normalize pos)
        let e := Vec3.length eVector
        let i := Real.arccos (min 1 (max (-1) (h.z / Vec3.length h))) * 180 / Real.pi
        let period := if 0 < a then 2 * Real.pi * Real.sqrt (a ^ 3 / mu) / 86400 else 0
        { semiMajorAxis := a / AU_TO_KM
          eccentricity := e
          inclination := i
          periapsis := a * (1 - e) / AU_TO_KM
          apoapsis := a * (1 + e) / AU_TO_KM
          period := period
          specificEnergy := energy }
  | _, _ => zeroElements

/-!
## SpacecraftSystems.executeBurn
-/

/-- The fields of `this.propulsion.main` that executeBurn reads or writes. -/
structure MainPropulsion where
  fuel : ℝ
  thrust : ℝ
  specificImpulse : ℝ
  throttle : ℝ
  ignitions : ℕ
  ignitionsUsed : ℕ

/-- The slice of SpacecraftSystems state that executeBurn touches: the main
engine and the battery charge. -/
structure SystemsState where
  main : MainPropulsion
  batteryCharge : ℝ

/-- The typed result of SpacecraftSystems.executeBurn. -/
inductive BurnResult where
  | failure (reason : String)
  | success (fuelUsed : ℝ)

/-- SpacecraftSystems.executeBurn (SpacecraftSystems.js lines 390-420).  The
checks run in source order: ignition budget, fuel, then battery-charge floor
(10 kWh); on success the throttle is set to 1 and the ignition count is
incremented.  The `setTimeout` that later resets the throttle after
`duration` is wall-clock behaviour outside this per-call contract; `duration`
is otherwise unused, as in the source. -/
noncomputable def executeBurn (sys : SystemsState) (deltaVMagnitude duration spacecraftMass : ℝ) :
    SystemsState × BurnResult :=
  if sys.main.ignitions ≤ sys.main.ignitionsUsed then
    (sys, BurnResult.failure "No ignitions remaining")
  else
    let fuelRequired :=
      SpacecraftSystems.calculateFuelRequired sys.main.specificImpulse deltaVMagnitude
        spacecraftMass
    if sys.main.fuel < fuelRequired then (sys, BurnResult.failure "Insufficient fuel")
    else if sys.batteryCharge < 10 then (sys, BurnResult.failure "Insufficient power")
    else
      ({ sys with
          main := { sys.main with throttle := 1, ignitionsUsed := sys.main.ignitionsUsed + 1 } },
        BurnResult.success fuelRequired)

/-!
## SpacecraftSystems.applyTorque and desaturateReactionWheels
-/

/-- The attitude-control state applyTorque reads and writes: the reaction-wheel
momentum vector (Nms) and the RCS fuel store (kg).  The orientation quaternion
and angular velocity, which applyTorque also updates, are not referenced by
any claim and are omitted. -/
structure AttitudeState where
  momentum : Vec3
  rcsFuel : ℝ

/-- `this.attitude.reactionWheels.maxMomentum` (Nms). -/
def maxMomentum : ℝ := 50

/-- SpacecraftSystems.desaturateReactionWheels (SpacecraftSystems.js lines
322-331): no-op when RCS fuel is exhausted (`fuel <= 0`); otherwise burns
`0.01 * deltaTime` kg of RCS fuel and scales the wheel momentum by 0.99. -/
noncomputable def desaturateReactionWheels (s : AttitudeState) (deltaTime : ℝ) : AttitudeState :=
  if s.rcsFuel ≤ 0 then s
  else
    { momentum := Vec3.smul 0.99 s.momentum
      rcsFuel := s.rcsFuel - 0.01 * deltaTime }

/-- SpacecraftSystems.applyTorque (SpacecraftSystems.js lines 296-320): below
80% of `maxMomentum` the wheels absorb `torque * deltaTime`; at or past the
threshold the wheels are desaturated through the RCS instead. -/
noncomputable def applyTorque (s : AttitudeState) (torque : Vec3) (deltaTime : ℝ) : AttitudeState :=
  if Vec3.length s.momentum < maxMomentum * 0.8 then
    { s with momentum := Vec3.add s.momentum (Vec3.smul deltaTime torque) }
  else desaturateReactionWheels s deltaTime

/-- A sequence of attitude-control updates: applyTorque folded over a list of
(torque, deltaTime) pairs, one pair per tick on which the controller is
active. -/
noncomputable def applyTorqueRun (s : AttitudeState) (updates : List (Vec3 × ℝ)) : AttitudeState :=
  updates.foldl (fun st u => applyTorque st u.1 u.2) s

/-!
## BaseSpacecraft.updateTrajectory
-/

/-- A position whose components are JavaScript numbers that may be non-finite:
`none` stands for NaN/±Infinity (the only way `isFinite` fails), `some c` for
a finite component of value `c`. -/
structure JVec3 where
  x : Option ℝ
  y : Option ℝ
  z : Option ℝ

/-- The trajectory-recording check `isFinite(x) && isFinite(y) && isFinite(z)`. -/
def isFiniteVec (p : JVec3) : Bool := p.x.isSome && p.y.isSome && p.z.isSome

/-- The BaseSpacecraft state read and written by updateTrajectory: the bounded
trajectory history, its capacity `maxTrajectoryPoints` (`VISUAL_SETTINGS.trailLength`,
5000), the one-shot warning latch `_warnedInvalidPosition`, and a count of
`console.warn` emissions (modelling the warning side effect). -/
structure TrajState where
  trajectory : List JVec3
  maxTrajectoryPoints : ℕ
  warnedInvalidPosition : Bool
  warnCount : ℕ

/-- BaseSpacecraft.updateTrajectory (BaseSpacecraft.js lines 452-497), the
state-mutating part: a non-finite position warns once (latched) and returns
without touching the trajectory; a finite position resets the latch, is pushed
onto the history, and the oldest entry is shifted off when the capacity is
exceeded.  The geometry-buffer copy that follows in the source only mirrors
the list for display. -/
def updateTrajectory (s : TrajState) (pos : JVec3) : TrajState :=
  if isFiniteVec pos = false then
    if s.warnedInvalidPosition = false then
      { s with warnedInvalidPosition := true, warnCount := s.warnCount + 1 }
    else s
  else
    let s1 := { s with warnedInvalidPosition := false }
    let t := s1.trajectory ++ [pos]
    if s1.maxTrajectoryPoints < t.length then { s1 with trajectory := t.tail }
    else { s1 with trajectory := t }

/-- A sequence of ticks: updateTrajectory folded over the positions observed
at each tick. -/
def runTrajectory (s : TrajState) (ps : List JVec3) : TrajState :=
  ps.foldl updateTrajectory s

/-!
## ManoeuvreNode.calculateOrbitalElements and propagateOrbit
-/

/-- The reduced elements record (semi-major axis in AU, eccentricity, mean
anomaly) returned by ManoeuvreNode.calculateOrbitalElements. -/
structure MNElements where
  a : ℝ
  e : ℝ
  M : ℝ

/-- ManoeuvreNode.calculateOrbitalElements (ManoeuvreNode.js lines 107-130).
Note the source line `const M = 0; // Would calculate from current position`:
the mean anomaly is the constant 0 for every state. -/
noncomputable def ManoeuvreNode.calculateOrbitalElements (r v : Vec3) (mu : ℝ) : MNElements :=
  let rMag := Vec3.length r * AU_TO_KM
  let vMag := Vec3.length v
  let energy := vMag * vMag / 2 - mu / rMag
  let a := -mu / (2 * energy)
  let h := Vec3.cross (Vec3.smul AU_TO_KM r) v
  let eVec := Vec3.sub (Vec3.divScalar (Vec3.cross v h) mu) (Vec3.normalize r)
  let e := Vec3.length eVec
  { a := a / AU_TO_KM, e := e, M := 0 }

/-- The propagated orbital radius (km/AU mix as in the source: `a` in AU, the
result in the same unit as `a`), extracted from ManoeuvreNode.propagateOrbit
lines 79-95 as a function of the semi-major axis, the eccentricity and the
elapsed time alone — exhibiting that the propagation depends on the input
state only through `a` and `e`.  `solveKeplers` abstracts the Newton–Raphson
solver `solveKeplersEquation(M, e)`. -/
noncomputable def ManoeuvreNode.propagatedRadius (solveKeplers : ℝ → ℝ → ℝ)
    (a e time : ℝ) : ℝ :=
  let mu := GRAVITATIONAL_PARAMETERS_sun / 1e9
  let n := Real.sqrt (mu / a ^ 3)
  let M := 0 + n * time
  let E := solveKeplers M e
  a * (1 - e * Real.cos E)

/-- ManoeuvreNode.propagateOrbit (ManoeuvreNode.js lines 67-105), parametrised
by the Kepler solver it calls.  The source also computes `nu`, `vr`, `vt`
(true anomaly and orbital-frame velocity components) but discards them: the
returned velocity is `v0.clone()` and the returned position is the *original*
radial direction scaled by the propagated radius. -/
noncomputable def ManoeuvreNode.propagateOrbit (solveKeplers : ℝ → ℝ → ℝ)
    (position velocity : Vec3) (time : ℝ) : Vec3 × Vec3 :=
  let mu := GRAVITATIONAL_PARAMETERS_sun / 1e9
  let r0 := position
  let v0 := velocity
  let elements := ManoeuvreNode.calculateOrbitalElements r0 v0 mu
  let n := Real.sqrt (mu / elements.a ^ 3)
  let M0 := elements.M
  let M := M0 + n * time
  let E := solveKeplers M elements.e
  let r := elements.a * (1 - elements.e * Real.cos E)
  let position_new := Vec3.smul (r * AU_TO_KM) (Vec3.normalize r0)
  let velocity_new := v0
  (position_new, velocity_new)

/-!
## Norm lemmas for Vec3
-/

theorem Vec3.length_nonneg (v : Vec3) : 0 ≤ Vec3.length v := Real.sqrt_nonneg _

theorem Vec3.length_smul (c : ℝ) (v : Vec3) :
    Vec3.length (Vec3.smul c v) = |c| * Vec3.length v := by
  unfold Vec3.length Vec3.smul
  rw [show (c * v.x) ^ 2 + (c * v.y) ^ 2 + (c * v.z) ^ 2
        = c ^ 2 * (v.x ^ 2 + v.y ^ 2 + v.z ^ 2) by ring,
    Real.sqrt_mul (sq_nonneg c), Real.sqrt_sq_eq_abs]

theorem Vec3.dot_sq_le (u v : Vec3) :
    (u.x * v.x + u.y * v.y + u.z * v.z) ^ 2
      ≤ (u.x ^ 2 + u.y ^ 2 + u.z ^ 2) * (v.x ^ 2 + v.y ^ 2 + v.z ^ 2) := by
  nlinarith [sq_nonneg (u.x * v.y - u.y * v.x), sq_nonneg (u.x * v.z - u.z * v.x),
    sq_nonneg (u.y * v.z - u.z * v.y)]

theorem Vec3.length_add_le (u v : Vec3) :
    Vec3.length (Vec3.add u v) ≤ Vec3.length u + Vec3.length v := by
  have hA : (0:ℝ) ≤ u.x ^ 2 + u.y ^ 2 + u.z ^ 2 := by positivity
  have hB : (0:ℝ) ≤ v.x ^ 2 + v.y ^ 2 + v.z ^ 2 := by positivity
  have hdot : u.x * v.x + u.y * v.y + u.z * v.z ≤ Vec3.length u * Vec3.length v := by
    have h1 : u.x * v.x + u.y * v.y + u.z * v.z
        ≤ Real.sqrt ((u.x ^ 2 + u.y ^ 2 + u.z ^ 2) * (v.x ^ 2 + v.y ^ 2 + v.z ^ 2)) :=
      calc u.x * v.x + u.y * v.y + u.z * v.z
          ≤ |u.x * v.x + u.y * v.y + u.z * v.z| := le_abs_self _
        _ = Real.sqrt ((u.x * v.x + u.y * v.y + u.z * v.z) ^ 2) := (Real.sqrt_sq_eq_abs _).symm
        _ ≤ Real.sqrt ((u.x ^ 2 + u.y ^ 2 + u.z ^ 2) * (v.x ^ 2 + v.y ^ 2 + v.z ^ 2)) :=
            Real.sqrt_le_sqrt (Vec3.dot_sq_le u v)
    rwa [Real.sqrt_mul hA] at h1
  have e1 : Vec3.length u ^ 2 = u.x ^ 2 + u.y ^ 2 + u.z ^ 2 := Real.sq_sqrt hA
  have e2 : Vec3.length v ^ 2 = v.x ^ 2 + v.y ^ 2 + v.z ^ 2 := Real.sq_sqrt hB
  have hsum : (u.x + v.x) ^ 2 + (u.y + v.y) ^ 2 + (u.z + v.z) ^ 2
      ≤ (Vec3.length u + Vec3.length v) ^ 2 := by nlinarith [hdot, e1, e2]
  calc Vec3.length (Vec3.add u v)
      = Real.sqrt ((u.x + v.x) ^ 2 + (u.y + v.y) ^ 2 + (u.z + v.z) ^ 2) := rfl
    _ ≤ Real.sqrt ((Vec3.length u + Vec3.length v) ^ 2) := Real.sqrt_le_sqrt hsum
    _ = |Vec3.length u + Vec3.length v| := Real.sqrt_sq_eq_abs _
    _ = Vec3.length u + Vec3.length v :=
        abs_of_nonneg (add_nonneg (Vec3.length_nonneg u) (Vec3.length_nonneg v))

/-!
## Claim C5
-/

/-- Claim C5: one integration step computes the new velocity as
`v + a * dt / 1000` (m/s² converted to km/s) and then the new position as
`p + v_new * dt / AU_TO_KM` (km/s converted to AU) using the already-updated
velocity — semi-implicit (symplectic) Euler, not true velocity Verlet. -/
theorem C5_integrateMotion_semi_implicit_euler (s : MotionState) (a : Vec3) (dt : ℝ) :
    (integrateMotion s a dt).velocity = Vec3.add s.velocity (Vec3.smul (dt / 1000) a) ∧
    (integrateMotion s a dt).position =
      Vec3.add s.position (Vec3.smul (dt / AU_TO_KM) (integrateMotion s a dt).velocity) :=
  ⟨rfl, rfl⟩

/-!
## Claim C1
-/

/-- Claim C1 counterexample: the claim quantifies over every mass, but at a
negative mass the SpacecraftSystems fuel calculation returns a negative fuel
requirement, so "never negative" fails as stated. -/
theorem C1_counterexample : SpacecraftSystems.calculateFuelRequired 350 1 (-1) < 0 := by
  simp only [SpacecraftSystems.calculateFuelRequired]
  have h : (1:ℝ) < Real.exp (1 * 1000 / (350 * 9.81)) := by
    rw [Real.one_lt_exp_iff]
    norm_num
  nlinarith [h]

/-- Claim C1 (amended): for exhaust parameters `isp > 0`, masses `m > 0` and
delta-V magnitudes `0 ≤ dV1 < dV2`, both fuel calculations return 0 at zero
delta-V, are strictly increasing in delta-V, never return a negative value,
follow the rocket equation `fuel = total * (1 - exp (-ΔV/vex))` where `total`
is the mass *including* the required fuel, and never exceed that total mass. -/
theorem C1_fuel_required_rocket_equation (isp m dV1 dV2 : ℝ)
    (hisp : 0 < isp) (hm : 0 < m) (h1 : 0 ≤ dV1) (h12 : dV1 < dV2) :
    SpacecraftSystems.calculateFuelRequired isp 0 m = 0 ∧
    TrajectoryPlanner.calculateFuelRequired isp m 0 = 0 ∧
    SpacecraftSystems.calculateFuelRequired isp dV1 m <
      SpacecraftSystems.calculateFuelRequired isp dV2 m ∧
    TrajectoryPlanner.calculateFuelRequired isp m dV1 <
      TrajectoryPlanner.calculateFuelRequired isp m dV2 ∧
    0 ≤ SpacecraftSystems.calculateFuelRequired isp dV1 m ∧
    SpacecraftSystems.calculateFuelRequired isp dV1 m =
      (m + SpacecraftSystems.calculateFuelRequired isp dV1 m) *
        (1 - Real.exp (-(dV1 * 1000 / (isp * 9.81)))) ∧
    SpacecraftSystems.calculateFuelRequired isp dV1 m ≤
      m + SpacecraftSystems.calculateFuelRequired isp dV1 m := by
  have hX : (0:ℝ) < isp * 9.81 := by positivity
  have hvex : (0:ℝ) < isp * 9.81 / 1000 := by positivity
  have hSSlt : Real.exp (dV1 * 1000 / (isp * 9.81)) < Real.exp (dV2 * 1000 / (isp * 9.81)) := by
    apply Real.exp_lt_exp.2
    exact (div_lt_div_iff_of_pos_right hX).2 (by linarith)
  have hTPlt : Real.exp (dV1 / (isp * 9.81 / 1000)) < Real.exp (dV2 / (isp * 9.81 / 1000)) := by
    apply Real.exp_lt_exp.2
    exact (div_lt_div_iff_of_pos_right hvex).2 h12
  simp only [SpacecraftSystems.calculateFuelRequired, TrajectoryPlanner.calculateFuelRequired]
  refine ⟨?_, ?_, ?_, ?_, ?_, ?_, ?_⟩
  · simp [Real.exp_zero]
  · simp [Real.exp_zero]
  · nlinarith [hSSlt]
  · have hR1 : 1 ≤ Real.exp (dV1 / (isp * 9.81 / 1000)) :=
      Real.one_le_exp (div_nonneg h1 hvex.le)
    have hR2 : 1 < Real.exp (dV2 / (isp * 9.81 / 1000)) := by
      rw [Real.one_lt_exp_iff]
      exact div_pos (lt_of_le_of_lt h1 h12) hvex
    split_ifs with ha hb hb
    · linarith
    · nlinarith [hR2]
    · linarith [hTPlt]
    · nlinarith [hTPlt]
  · have hR1 : 1 ≤ Real.exp (dV1 * 1000 / (isp * 9.81)) :=
      Real.one_le_exp (by positivity)
    nlinarith [hR1]
  · rw [Real.exp_neg]
    have hR : Real.exp (dV1 * 1000 / (isp * 9.81)) ≠ 0 := Real.exp_ne_zero _
    field_simp
    ring
  · have hR1 : 1 ≤ Real.exp (dV1 * 1000 / (isp * 9.81)) :=
      Real.one_le_exp (by positivity)
    nlinarith [hR1]

/-- Claim C1 witness: the amended statement instantiated at `isp = 350`,
`m = 1000`, `dV1 = 0`, `dV2 = 1`. -/
theorem C1_fuel_required_rocket_equation_witness :
    (0:ℝ) < 350 ∧ (0:ℝ) < 1000 ∧ (0:ℝ) ≤ 0 ∧ (0:ℝ) < 1 ∧
    SpacecraftSystems.calculateFuelRequired 350 0 1000 = 0 ∧
    SpacecraftSystems.calculateFuelRequired 350 0 1000 <
      SpacecraftSystems.calculateFuelRequired 350 1 1000 :=
  ⟨by norm_num, by norm_num, le_rfl, by norm_num,
    (C1_fuel_required_rocket_equation 350 1000 0 1 (by norm_num) (by norm_num) le_rfl
      (by norm_num)).1,
    (C1_fuel_required_rocket_equation 350 1000 0 1 (by norm_num) (by norm_num) le_rfl
      (by norm_num)).2.2.1⟩

/-!
## Claim C4
-/

/-- Claim C4: executeBurn is a total function returning a typed result, with
the checks in source order — ignition budget, then fuel, then the 10 kWh
battery floor — and on success it sets the throttle to 1 and increments the
ignition count by exactly one; on every failure the returned state is the
input state, unchanged. -/
theorem C4_executeBurn_typed_result (sys : SystemsState) (dV dur m : ℝ) :
    (sys.main.ignitions ≤ sys.main.ignitionsUsed →
      executeBurn sys dV dur m = (sys, BurnResult.failure "No ignitions remaining")) ∧
    (sys.main.ignitionsUsed < sys.main.ignitions →
      sys.main.fuel < SpacecraftSystems.calculateFuelRequired sys.main.specificImpulse dV m →
      executeBurn sys dV dur m = (sys, BurnResult.failure "Insufficient fuel")) ∧
    (sys.main.ignitionsUsed < sys.main.ignitions →
      SpacecraftSystems.calculateFuelRequired sys.main.specificImpulse dV m ≤ sys.main.fuel →
      sys.batteryCharge < 10 →
      executeBurn sys dV dur m = (sys, BurnResult.failure "Insufficient power")) ∧
    (sys.main.ignitionsUsed < sys.main.ignitions →
      SpacecraftSystems.calculateFuelRequired sys.main.specificImpulse dV m ≤ sys.main.fuel →
      10 ≤ sys.batteryCharge →
      executeBurn sys dV dur m =
        ({ sys with
            main := { sys.main with
              throttle := 1
              ignitionsUsed := sys.main.ignitionsUsed + 1 } },
          BurnResult.success
            (SpacecraftSystems.calculateFuelRequired sys.main.specificImpulse dV m))) := by
  refine ⟨?_, ?_, ?_, ?_⟩
  · intro h
    simp only [executeBurn]
    split_ifs with hig hfuel hpow <;> first | rfl | (exfalso; omega)
  · intro h hf
    simp only [executeBurn]
    split_ifs with hig hfuel hpow <;> first | rfl | (exfalso; omega) | (exfalso; linarith)
  · intro h hf hp
    simp only [executeBurn]
    split_ifs with hig hfuel hpow <;> first | rfl | (exfalso; omega) | (exfalso; linarith)
  · intro h hf hp
    simp only [executeBurn]
    split_ifs with hig hfuel hpow <;> first | rfl | (exfalso; omega) | (exfalso; linarith)

/-- Claim C4 witness: all four outcomes exercised on concrete states (a used-up
single-ignition engine; a tank below the requirement; a battery below 10 kWh;
and a healthy state where the burn succeeds). -/
theorem C4_executeBurn_typed_result_witness :
    executeBurn ⟨⟨500, 50000, 350, 0, 1, 1⟩, 100⟩ 1 10 0 =
      (⟨⟨500, 50000, 350, 0, 1, 1⟩, 100⟩, BurnResult.failure "No ignitions remaining") ∧
    executeBurn ⟨⟨-1, 50000, 350, 0, 1, 0⟩, 100⟩ 1 10 0 =
      (⟨⟨-1, 50000, 350, 0, 1, 0⟩, 100⟩, BurnResult.failure "Insufficient fuel") ∧
    executeBurn ⟨⟨500, 50000, 350, 0, 1, 0⟩, 5⟩ 1 10 0 =
      (⟨⟨500, 50000, 350, 0, 1, 0⟩, 5⟩, BurnResult.failure "Insufficient power") ∧
    executeBurn ⟨⟨500, 50000, 350, 0, 1, 0⟩, 100⟩ 1 10 0 =
      (⟨⟨500, 50000, 350, 1, 1, 1⟩, 100⟩,
        BurnResult.success (SpacecraftSystems.calculateFuelRequired 350 1 0)) := by
  have h0 : SpacecraftSystems.calculateFuelRequired 350 1 0 = 0 := by
    simp [SpacecraftSystems.calculateFuelRequired]
  refine ⟨?_, ?_, ?_, ?_⟩
  · exact (C4_executeBurn_typed_result ⟨⟨500, 50000, 350, 0, 1, 1⟩, 100⟩ 1 10 0).1 le_rfl
  · exact (C4_executeBurn_typed_result ⟨⟨-1, 50000, 350, 0, 1, 0⟩, 100⟩ 1 10 0).2.1
      (by norm_num) (by rw [h0]; norm_num)
  · exact (C4_executeBurn_typed_result ⟨⟨500, 50000, 350, 0, 1, 0⟩, 5⟩ 1 10 0).2.2.1
      (by norm_num) (by rw [h0]; norm_num) (by norm_num)
  · exact (C4_executeBurn_typed_result ⟨⟨500, 50000, 350, 0, 1, 0⟩, 100⟩ 1 10 0).2.2.2
      (by norm_num) (by rw [h0]; norm_num) (by norm_num)

/-!
## Claim C2
-/

/-- Claim C2 counterexample: with any torque vector and time step allowed, one
update below the 80% threshold can jump the wheel momentum past `maxMomentum`:
from rest, a torque of (100, 0, 0) Nm over 1 s stores 100 Nms > 50 Nms. -/
theorem C2_counterexample :
    maxMomentum < Vec3.length (applyTorque ⟨⟨0, 0, 0⟩, 50⟩ ⟨100, 0, 0⟩ 1).momentum := by
  have hz : Vec3.length ⟨0, 0, 0⟩ = 0 := by
    simp [Vec3.length]
  have hbranch : Vec3.length (⟨⟨0, 0, 0⟩, 50⟩ : AttitudeState).momentum < maxMomentum * 0.8 := by
    show Vec3.length ⟨0, 0, 0⟩ < maxMomentum * 0.8
    rw [hz, maxMomentum]
    norm_num
  rw [applyTorque, if_pos hbranch]
  show maxMomentum < Vec3.length (Vec3.add ⟨0, 0, 0⟩ (Vec3.smul 1 ⟨100, 0, 0⟩))
  have : Vec3.add ⟨0, 0, 0⟩ (Vec3.smul 1 ⟨100, 0, 0⟩) = ⟨100, 0, 0⟩ := by
    simp [Vec3.add, Vec3.smul]
  rw [this]
  have h100 : Vec3.length ⟨100, 0, 0⟩ = 100 := by
    simp only [Vec3.length]
    rw [show ((100:ℝ) ^ 2 + 0 ^ 2 + 0 ^ 2) = 100 ^ 2 by norm_num,
      Real.sqrt_sq (by norm_num : (0:ℝ) ≤ 100)]
  rw [h100, maxMomentum]
  norm_num

/-- Claim C2 (amended): once the stored momentum is at or past 80% of
`maxMomentum`, applyTorque adds no further momentum — the wheels are
desaturated instead (momentum scaled by 0.99, or left unchanged when the RCS
is dry), so the magnitude never increases there; and over every sequence of
updates whose individual impulse `|torque| * dt` stays within the remaining
20% band, the momentum magnitude never exceeds `maxMomentum`.  (Without the
per-update impulse bound the cap can be overshot, see the counterexample.) -/
theorem C2_reaction_wheel_cap (s : AttitudeState) (t : Vec3) (dt : ℝ)
    (updates : List (Vec3 × ℝ)) :
    (maxMomentum * 0.8 ≤ Vec3.length s.momentum →
      ((applyTorque s t dt).momentum = Vec3.smul 0.99 s.momentum ∨
        (applyTorque s t dt).momentum = s.momentum) ∧
      Vec3.length (applyTorque s t dt).momentum ≤ Vec3.length s.momentum) ∧
    (Vec3.length s.momentum ≤ maxMomentum →
      (∀ u ∈ updates, 0 < u.2 ∧ Vec3.length u.1 * u.2 ≤ maxMomentum * 0.2) →
      Vec3.length (applyTorqueRun s updates).momentum ≤ maxMomentum) := by
  constructor
  · intro hsat
    rw [applyTorque, if_neg (not_lt.2 hsat), desaturateReactionWheels]
    split_ifs with hfuel
    · exact ⟨Or.inr rfl, le_rfl⟩
    · refine ⟨Or.inl rfl, ?_⟩
      show Vec3.length (Vec3.smul 0.99 s.momentum) ≤ Vec3.length s.momentum
      rw [Vec3.length_smul]
      nlinarith [Vec3.length_nonneg s.momentum, abs_of_nonneg (by norm_num : (0:ℝ) ≤ 0.99)]
  · intro hinit hbound
    induction updates generalizing s with
    | nil => exact hinit
    | cons u us ih =>
      have hu := hbound u (List.mem_cons_self u us)
      have hrest : ∀ w ∈ us, 0 < w.2 ∧ Vec3.length w.1 * w.2 ≤ maxMomentum * 0.2 :=
        fun w hw => hbound w (List.mem_cons_of_mem u hw)
      have hstep : Vec3.length (applyTorque s u.1 u.2).momentum ≤ maxMomentum := by
        rw [applyTorque]
        split_ifs with hlow
        · show Vec3.length (Vec3.add s.momentum (Vec3.smul u.2 u.1)) ≤ maxMomentum
          have htri := Vec3.length_add_le s.momentum (Vec3.smul u.2 u.1)
          have hsm : Vec3.length (Vec3.smul u.2 u.1) = u.2 * Vec3.length u.1 := by
            rw [Vec3.length_smul, abs_of_nonneg hu.1.le]
          have hmax : (0:ℝ) < maxMomentum := by rw [maxMomentum]; norm_num
          rw [hsm] at htri
          have hcap : u.2 * Vec3.length u.1 ≤ maxMomentum * 0.2 := by
            calc u.2 * Vec3.length u.1 = Vec3.length u.1 * u.2 := by ring
              _ ≤ maxMomentum * 0.2 := hu.2
          nlinarith [htri, hlow, hcap]
        · rw [desaturateReactionWheels]
          split_ifs with hfuel
          · linarith [not_lt.1 hlow, hinit]
          · show Vec3.length (Vec3.smul 0.99 s.momentum) ≤ maxMomentum
            rw [Vec3.length_smul, abs_of_nonneg (by norm_num : (0:ℝ) ≤ 0.99)]
            nlinarith [Vec3.length_nonneg s.momentum, hinit]
      exact ih (applyTorque s u.1 u.2) hstep hrest

/-- Claim C2 witness: the amended statement at a saturated state (momentum
(40, 0, 0) Nms, exactly the 80% threshold of 50 Nms) and on a one-update
in-band sequence starting from rest. -/
theorem C2_reaction_wheel_cap_witness :
    maxMomentum * 0.8 ≤ Vec3.length (⟨⟨40, 0, 0⟩, 50⟩ : AttitudeState).momentum ∧
    Vec3.length (applyTorque ⟨⟨40, 0, 0⟩, 50⟩ ⟨1, 0, 0⟩ 1).momentum ≤
      Vec3.length (⟨⟨40, 0, 0⟩, 50⟩ : AttitudeState).momentum ∧
    Vec3.length (applyTorqueRun ⟨⟨0, 0, 0⟩, 50⟩ [(⟨1, 0, 0⟩, 1)]).momentum ≤ maxMomentum := by
  have h40 : Vec3.length (⟨⟨40, 0, 0⟩, 50⟩ : AttitudeState).momentum = 40 := by
    show Vec3.length ⟨40, 0, 0⟩ = 40
    simp only [Vec3.length]
    rw [show ((40:ℝ) ^ 2 + 0 ^ 2 + 0 ^ 2) = 40 ^ 2 by norm_num,
      Real.sqrt_sq (by norm_num : (0:ℝ) ≤ 40)]
  have hsat : maxMomentum * 0.8 ≤ Vec3.length (⟨⟨40, 0, 0⟩, 50⟩ : AttitudeState).momentum := by
    rw [h40, maxMomentum]; norm_num
  have h1 : Vec3.length (⟨1, 0, 0⟩ : Vec3) = 1 := by
    simp only [Vec3.length]
    rw [show ((1:ℝ) ^ 2 + 0 ^ 2 + 0 ^ 2) = 1 ^ 2 by norm_num,
      Real.sqrt_sq (by norm_num : (0:ℝ) ≤ 1)]
  have h0 : Vec3.length (⟨⟨0, 0, 0⟩, 50⟩ : AttitudeState).momentum = 0 := by
    show Vec3.length ⟨0, 0, 0⟩ = 0
    simp [Vec3.length]
  refine ⟨hsat,
    (C2_reaction_wheel_cap ⟨⟨40, 0, 0⟩, 50⟩ ⟨1, 0, 0⟩ 1 []).1 hsat |>.2,
    (C2_reaction_wheel_cap ⟨⟨0, 0, 0⟩, 50⟩ ⟨1, 0, 0⟩ 1 [(⟨1, 0, 0⟩, 1)]).2 ?_ ?_⟩
  · rw [h0, maxMomentum]; norm_num
  · intro u hu
    rw [List.mem_singleton] at hu
    subst hu
    refine ⟨by norm_num, ?_⟩
    show Vec3.length ⟨1, 0, 0⟩ * 1 ≤ maxMomentum * 0.2
    rw [h1, maxMomentum]
    norm_num

/-!
## Claim C7
-/

/-- Claim C7 counterexample: desaturation is guarded only by `fuel <= 0`, so a
tick that starts with a small positive RCS reserve drives the fuel negative:
with saturated wheels, fuel 0.005 kg and dt = 1 s, the fuel ends at −0.005 kg. -/
theorem C7_counterexample :
    (applyTorque ⟨⟨50, 0, 0⟩, 0.005⟩ ⟨0, 0, 0⟩ 1).rcsFuel < 0 := by
  have h50 : Vec3.length (⟨50, 0, 0⟩ : Vec3) = 50 := by
    simp only [Vec3.length]
    rw [show ((50:ℝ) ^ 2 + 0 ^ 2 + 0 ^ 2) = 50 ^ 2 by norm_num,
      Real.sqrt_sq (by norm_num : (0:ℝ) ≤ 50)]
  rw [applyTorque]
  rw [if_neg (by rw [maxMomentum]; show ¬ Vec3.length ⟨50, 0, 0⟩ < (50:ℝ) * 0.8; rw [h50]; norm_num)]
  rw [desaturateReactionWheels, if_neg (by norm_num)]
  norm_num

/-- Claim C7 (amended): RCS desaturation consumes fuel only while the fuel is
strictly positive, and once the fuel is nonpositive it is never touched again;
a single tick can overshoot zero by at most `0.01 * dt`, so over any sequence
of attitude updates with time steps in (0, D] the fuel, starting nonnegative,
never drops below `−0.01 * D` (rather than never below 0 as claimed). -/
theorem C7_rcs_fuel_lower_bound (s : AttitudeState) (t : Vec3) (dt D : ℝ)
    (updates : List (Vec3 × ℝ)) :
    (s.rcsFuel ≤ 0 → desaturateReactionWheels s dt = s) ∧
    (0 ≤ dt → (applyTorque s t dt).rcsFuel ≤ s.rcsFuel) ∧
    (0 ≤ D → 0 ≤ s.rcsFuel →
      (∀ u ∈ updates, 0 < u.2 ∧ u.2 ≤ D) →
      -(0.01 * D) ≤ (applyTorqueRun s updates).rcsFuel) := by
  refine ⟨?_, ?_, ?_⟩
  · intro h
    rw [desaturateReactionWheels, if_pos h]
  · intro hdt
    rw [applyTorque]
    split_ifs with hlow
    · exact le_rfl
    · rw [desaturateReactionWheels]
      split_ifs with hfuel
      · exact le_rfl
      · show s.rcsFuel - 0.01 * dt ≤ s.rcsFuel
        nlinarith [hdt]
  · intro hD hinit hbound
    have hstart : -(0.01 * D) ≤ s.rcsFuel := by nlinarith [hD, hinit]
    clear hinit
    induction updates generalizing s with
    | nil => exact hstart
    | cons u us ih =>
      have hu := hbound u (List.mem_cons_self u us)
      have hrest : ∀ w ∈ us, 0 < w.2 ∧ w.2 ≤ D :=
        fun w hw => hbound w (List.mem_cons_of_mem u hw)
      have hstep : -(0.01 * D) ≤ (applyTorque s u.1 u.2).rcsFuel := by
        rw [applyTorque]
        split_ifs with hlow
        · exact hstart
        · rw [desaturateReactionWheels]
          split_ifs with hfuel
          · exact hstart
          · show -(0.01 * D) ≤ s.rcsFuel - 0.01 * u.2
            have := hu.2
            nlinarith [not_le.1 hfuel]
      exact ih (applyTorque s u.1 u.2) hrest hstep

/-- Claim C7 witness: the amended statement at a concrete saturated state with
1 kg of RCS fuel and a single 1-second update, with D = 1. -/
theorem C7_rcs_fuel_lower_bound_witness :
    ((⟨⟨50, 0, 0⟩, 0⟩ : AttitudeState).rcsFuel ≤ 0 ∧
      desaturateReactionWheels ⟨⟨50, 0, 0⟩, 0⟩ 1 = ⟨⟨50, 0, 0⟩, 0⟩) ∧
    -(0.01 * 1) ≤ (applyTorqueRun ⟨⟨50, 0, 0⟩, 1⟩ [(⟨0, 0, 0⟩, 1)]).rcsFuel := by
  constructor
  · exact ⟨le_rfl, (C7_rcs_fuel_lower_bound ⟨⟨50, 0, 0⟩, 0⟩ ⟨0, 0, 0⟩ 1 1 []).1 le_rfl⟩
  · refine (C7_rcs_fuel_lower_bound ⟨⟨50, 0, 0⟩, 1⟩ ⟨0, 0, 0⟩ 1 1
      [(⟨0, 0, 0⟩, 1)]).2.2 (by norm_num) (by norm_num) ?_
    intro u hu
    rw [List.mem_singleton] at hu
    subst hu
    exact ⟨by norm_num, le_rfl⟩

/-!
## Claim C8
-/

theorem updateTrajectory_max_eq (s : TrajState) (p : JVec3) :
    (updateTrajectory s p).maxTrajectoryPoints = s.maxTrajectoryPoints := by
  simp only [updateTrajectory]
  split_ifs <;> rfl

theorem updateTrajectory_length_le (s : TrajState) (p : JVec3)
    (h : s.trajectory.length ≤ s.maxTrajectoryPoints) :
    (updateTrajectory s p).trajectory.length ≤ s.maxTrajectoryPoints := by
  simp only [updateTrajectory]
  split_ifs with hfin hwarn hlen
  · exact h
  · exact h
  · simp only [List.length_tail, List.length_append, List.length_singleton]
    omega
  · simp only [List.length_append, List.length_singleton] at hlen ⊢
    omega

theorem suffix_append_right {α : Type} {l1 l2 : List α} (l3 : List α) (h : l1 <:+ l2) :
    l1 ++ l3 <:+ l2 ++ l3 := by
  obtain ⟨t, rfl⟩ := h
  exact ⟨t, (List.append_assoc t l1 l3).symm⟩

theorem updateTrajectory_suffix (s : TrajState) (p : JVec3) :
    (updateTrajectory s p).trajectory <:+ s.trajectory ++ List.filter isFiniteVec [p] := by
  by_cases hp : isFiniteVec p = false
  · simp only [updateTrajectory, if_pos hp]
    have hf : List.filter isFiniteVec [p] = [] := by simp [List.filter_cons, hp]
    rw [hf, List.append_nil]
    split_ifs <;> exact List.suffix_rfl
  · have hptrue : isFiniteVec p = true := by
      cases hv : isFiniteVec p
      · exact absurd hv hp
      · rfl
    simp only [updateTrajectory, if_neg hp]
    have hf : List.filter isFiniteVec [p] = [p] := by simp [List.filter_cons, hptrue]
    rw [hf]
    split_ifs with hlen
    · exact List.tail_suffix _
    · exact List.suffix_rfl

theorem runTrajectory_max_eq (s : TrajState) (ps : List JVec3) :
    (runTrajectory s ps).maxTrajectoryPoints = s.maxTrajectoryPoints := by
  induction ps generalizing s with
  | nil => rfl
  | cons p ps ih =>
    show (runTrajectory (updateTrajectory s p) ps).maxTrajectoryPoints = _
    rw [ih, updateTrajectory_max_eq]

theorem runTrajectory_length_le (s : TrajState) (ps : List JVec3)
    (h : s.trajectory.length ≤ s.maxTrajectoryPoints) :
    (runTrajectory s ps).trajectory.length ≤ s.maxTrajectoryPoints := by
  induction ps generalizing s with
  | nil => exact h
  | cons p ps ih =>
    show (runTrajectory (updateTrajectory s p) ps).trajectory.length ≤ _
    have h1 := updateTrajectory_length_le s p h
    rw [← updateTrajectory_max_eq s p] at h1 ⊢
    exact ih (updateTrajectory s p) h1

theorem runTrajectory_suffix (s : TrajState) (ps : List JVec3) :
    (runTrajectory s ps).trajectory <:+ s.trajectory ++ List.filter isFiniteVec ps := by
  induction ps generalizing s with
  | nil =>
    simp only [runTrajectory, List.foldl_nil, List.filter_nil, List.append_nil]
    exact List.suffix_rfl
  | cons p ps ih =>
    show (runTrajectory (updateTrajectory s p) ps).trajectory <:+ _
    refine (ih (updateTrajectory s p)).trans ?_
    have h1 : (updateTrajectory s p).trajectory ++ List.filter isFiniteVec ps
        <:+ (s.trajectory ++ List.filter isFiniteVec [p]) ++ List.filter isFiniteVec ps :=
      suffix_append_right _ (updateTrajectory_suffix s p)
    refine h1.trans ?_
    rw [List.append_assoc]
    cases hp : isFiniteVec p <;>
      simp [List.filter_cons, hp, List.suffix_rfl]

theorem runTrajectory_nonfinite (s : TrajState) (ps : List JVec3)
    (h : ∀ q ∈ ps, isFiniteVec q = false) :
    (runTrajectory s ps).trajectory = s.trajectory ∧
    (s.warnedInvalidPosition = true → (runTrajectory s ps).warnCount = s.warnCount) ∧
    (runTrajectory s ps).warnCount ≤ s.warnCount + 1 := by
  induction ps generalizing s with
  | nil =>
    refine ⟨?_, ?_, ?_⟩
    · rfl
    · intro h
      rfl
    · show s.warnCount ≤ s.warnCount + 1
      omega
  | cons p ps ih =>
    have hp := h p (List.mem_cons_self p ps)
    have hrest : ∀ q ∈ ps, isFiniteVec q = false := fun q hq => h q (List.mem_cons_of_mem p hq)
    have hupd : updateTrajectory s p =
        if s.warnedInvalidPosition = true then s
        else { s with warnedInvalidPosition := true, warnCount := s.warnCount + 1 } := by
      simp only [updateTrajectory, if_pos hp]
      split_ifs with h1 h2 <;> first | rfl | (exfalso; simp_all)
    show (runTrajectory (updateTrajectory s p) ps).trajectory = _ ∧
      ((s.warnedInvalidPosition = true →
        (runTrajectory (updateTrajectory s p) ps).warnCount = s.warnCount) ∧
       (runTrajectory (updateTrajectory s p) ps).warnCount ≤ s.warnCount + 1)
    rw [hupd]
    by_cases hw : s.warnedInvalidPosition = true
    · rw [if_pos hw]
      obtain ⟨h1, h2, h3⟩ := ih s hrest
      exact ⟨h1, fun _ => h2 hw, h3⟩
    · rw [if_neg hw]
      obtain ⟨h1, h2, h3⟩ :=
        ih { s with warnedInvalidPosition := true, warnCount := s.warnCount + 1 } hrest
      have h2x := h2 rfl
      exact ⟨h1, fun hT => absurd hT hw, le_of_eq h2x⟩

/-- Claim C8: the trajectory history is a bounded FIFO buffer — after any
sequence of ticks its length never exceeds `maxTrajectoryPoints` and the
surviving points are a suffix of the original history followed by the finite
positions observed, in order (oldest evicted first); a full buffer evicts
exactly the oldest point on append; a non-finite position is skipped without
touching the history; and a run of non-finite positions yields at most one
warning while the updates keep running (no abort). -/
theorem C8_trajectory_ring_buffer (s : TrajState) (p : JVec3) (ps : List JVec3)
    (hcap : s.trajectory.length ≤ s.maxTrajectoryPoints) :
    (runTrajectory s ps).trajectory.length ≤ s.maxTrajectoryPoints ∧
    (runTrajectory s ps).trajectory <:+ s.trajectory ++ List.filter isFiniteVec ps ∧
    (s.trajectory.length = s.maxTrajectoryPoints → 0 < s.maxTrajectoryPoints →
      isFiniteVec p = true →
      (updateTrajectory s p).trajectory = s.trajectory.tail ++ [p]) ∧
    (isFiniteVec p = false → (updateTrajectory s p).trajectory = s.trajectory) ∧
    ((∀ q ∈ ps, isFiniteVec q = false) →
      (runTrajectory s ps).trajectory = s.trajectory ∧
      (runTrajectory s ps).warnCount ≤ s.warnCount + 1) := by
  refine ⟨runTrajectory_length_le s ps hcap, runTrajectory_suffix s ps, ?_, ?_, ?_⟩
  · intro hfull hpos hfin
    simp only [updateTrajectory, hfin]
    rw [if_neg (by simp)]
    rw [if_pos (by simp only [List.length_append, List.length_singleton]; omega)]
    cases htr : s.trajectory with
    | nil => rw [htr] at hfull; simp at hfull; omega
    | cons a l => simp
  · intro hfin
    simp only [updateTrajectory, hfin]
    split_ifs <;> rfl
  · intro hall
    have h := runTrajectory_nonfinite s ps hall
    exact ⟨h.1, h.2.2⟩

/-- Claim C8 witness: a capacity-1 buffer holding one point evicts it when a
finite point arrives; a non-finite point is skipped; a run of two non-finite
points yields exactly at most one warning. -/
theorem C8_trajectory_ring_buffer_witness :
    (runTrajectory ⟨[⟨some 1, some 1, some 1⟩], 1, false, 0⟩
        [⟨none, some 0, some 0⟩, ⟨none, none, none⟩]).trajectory.length ≤ 1 ∧
    (updateTrajectory ⟨[⟨some 1, some 1, some 1⟩], 1, false, 0⟩
        ⟨some 2, some 2, some 2⟩).trajectory = [⟨some 2, some 2, some 2⟩] ∧
    (updateTrajectory ⟨[⟨some 1, some 1, some 1⟩], 1, false, 0⟩
        ⟨none, some 0, some 0⟩).trajectory = [⟨some 1, some 1, some 1⟩] ∧
    (runTrajectory ⟨[⟨some 1, some 1, some 1⟩], 1, false, 0⟩
        [⟨none, some 0, some 0⟩, ⟨none, none, none⟩]).warnCount ≤ 1 := by
  have hbad1 : isFiniteVec ⟨none, some 0, some 0⟩ = false := rfl
  have hbad2 : isFiniteVec ⟨none, none, none⟩ = false := rfl
  have hall : ∀ q ∈ [(⟨none, some 0, some 0⟩ : JVec3), ⟨none, none, none⟩],
      isFiniteVec q = false := by
    intro q hq
    rcases List.mem_cons.1 hq with rfl | hq
    · exact hbad1
    · rcases List.mem_cons.1 hq with rfl | hq
      · exact hbad2
      · simp at hq
  have hmain := C8_trajectory_ring_buffer ⟨[⟨some 1, some 1, some 1⟩], 1, false, 0⟩
    ⟨some 2, some 2, some 2⟩ [⟨none, some 0, some 0⟩, ⟨none, none, none⟩]
    (by simp)
  have hskip := C8_trajectory_ring_buffer ⟨[⟨some 1, some 1, some 1⟩], 1, false, 0⟩
    ⟨none, some 0, some 0⟩ [] (by simp)
  refine ⟨hmain.1, ?_, ?_, (hmain.2.2.2.2 hall).2⟩
  · have h := hmain.2.2.1 (by simp) (by norm_num) rfl
    simpa using h
  · exact hskip.2.2.2.1 hbad1

/-!
## Claim C6
-/

/-- Claim C6: calculateOrbitalElements returns the all-zero elements record
when position or velocity is missing, when mu = 0 or when the position
magnitude is 0 (the non-finite input guards of the source are vacuous over ℝ,
where every returned field is a real number, hence "finite" — the safeValue
fallback never has anything to replace); and the inclination is computed from
`h.z / |h|` clamped into [−1, 1] before acos, so for every input whatsoever it
lies within [0, 180] degrees. -/
theorem C6_orbital_elements_guards (p v : Vec3) (pOpt vOpt : Option Vec3) (mu : ℝ) :
    calculateOrbitalElements none vOpt mu = zeroElements ∧
    calculateOrbitalElements pOpt none mu = zeroElements ∧
    (mu = 0 → calculateOrbitalElements (some p) (some v) mu = zeroElements) ∧
    (Vec3.length p = 0 → calculateOrbitalElements (some p) (some v) mu = zeroElements) ∧
    (mu ≠ 0 → Vec3.length p * AU_TO_KM ≠ 0 →
      (calculateOrbitalElements (some p) (some v) mu).inclination =
        Real.arccos (min 1 (max (-1)
          ((Vec3.cross p v).z / Vec3.length (Vec3.cross p v)))) * 180 / Real.pi) ∧
    0 ≤ (calculateOrbitalElements (some p) (some v) mu).inclination ∧
    (calculateOrbitalElements (some p) (some v) mu).inclination ≤ 180 := by
  refine ⟨?_, ?_, ?_, ?_, ?_, ?_, ?_⟩
  · cases vOpt <;> rfl
  · cases pOpt <;> rfl
  · intro h
    simp only [calculateOrbitalElements]
    rw [if_pos h]
  · intro hlen
    simp only [calculateOrbitalElements]
    split_ifs with h1 h2 h3 <;> first | rfl | exact absurd (by rw [hlen]; ring) h2
  · intro hmu hr
    simp only [calculateOrbitalElements]
    rw [if_neg hmu, if_neg hr]
  · simp only [calculateOrbitalElements]
    split_ifs with h1 h2 h3 <;>
      first
      | exact le_rfl
      | exact div_nonneg (mul_nonneg (Real.arccos_nonneg _) (by norm_num)) Real.pi_pos.le
  · simp only [calculateOrbitalElements]
    split_ifs with h1 h2 h3 <;>
      first
      | (norm_num [zeroElements]; done)
      | (rw [div_le_iff Real.pi_pos]
         nlinarith [Real.arccos_le_pi (min 1 (max (-1)
           ((Vec3.cross p v).z / Vec3.length (Vec3.cross p v)))), Real.pi_pos])

/-- Claim C6 witness: the guards and the inclination bounds exercised at
concrete states — zero gravitational parameter, zero position, and the unit
circular state (1,0,0), (0,1,0) with mu = 1. -/
theorem C6_orbital_elements_guards_witness :
    calculateOrbitalElements (some ⟨1, 0, 0⟩) (some ⟨0, 1, 0⟩) 0 = zeroElements ∧
    calculateOrbitalElements (some ⟨0, 0, 0⟩) (some ⟨0, 1, 0⟩) 1 = zeroElements ∧
    0 ≤ (calculateOrbitalElements (some ⟨1, 0, 0⟩) (some ⟨0, 1, 0⟩) 1).inclination ∧
    (calculateOrbitalElements (some ⟨1, 0, 0⟩) (some ⟨0, 1, 0⟩) 1).inclination ≤ 180 := by
  refine ⟨?_, ?_, ?_, ?_⟩
  · exact (C6_orbital_elements_guards ⟨1, 0, 0⟩ ⟨0, 1, 0⟩ none none 0).2.2.1 rfl
  · refine (C6_orbital_elements_guards ⟨0, 0, 0⟩ ⟨0, 1, 0⟩ none none 1).2.2.2.1 ?_
    show Real.sqrt ((0:ℝ) ^ 2 + 0 ^ 2 + 0 ^ 2) = 0
    norm_num
  · exact (C6_orbital_elements_guards ⟨1, 0, 0⟩ ⟨0, 1, 0⟩ none none 1).2.2.2.2.2.1
  · exact (C6_orbital_elements_guards ⟨1, 0, 0⟩ ⟨0, 1, 0⟩ none none 1).2.2.2.2.2.2

/-!
## Claim C10
-/

/-- Claim C10: for every Kepler solver, input state and elapsed time, the
manoeuvre-node propagator returns the input velocity identically and a
position that is a scalar multiple of the input position (hence parallel to
it), with the scale determined only by the orbit's semi-major axis and
eccentricity and the elapsed time; and the manoeuvre-node elements routine
returns mean anomaly 0 for every state and every mu — so the prediction does
not depend on where the spacecraft currently is along its orbit. -/
theorem C10_propagateOrbit_state_independent (solveK : ℝ → ℝ → ℝ) (p v : Vec3) (t mu : ℝ) :
    (ManoeuvreNode.propagateOrbit solveK p v t).2 = v ∧
    (ManoeuvreNode.calculateOrbitalElements p v mu).M = 0 ∧
    (ManoeuvreNode.propagateOrbit solveK p v t).1 =
      Vec3.smul
        (ManoeuvreNode.propagatedRadius solveK
            (ManoeuvreNode.calculateOrbitalElements p v (GRAVITATIONAL_PARAMETERS_sun / 1e9)).a
            (ManoeuvreNode.calculateOrbitalElements p v (GRAVITATIONAL_PARAMETERS_sun / 1e9)).e
            t * AU_TO_KM / Vec3.length p)
        p := by
  have key : ∀ (c : ℝ) (w : Vec3),
      Vec3.smul c (Vec3.normalize w) = Vec3.smul (c / Vec3.length w) w := by
    intro c w
    unfold Vec3.normalize Vec3.divScalar Vec3.smul
    ext
    · show c * (w.x / Vec3.length w) = c / Vec3.length w * w.x
      ring
    · show c * (w.y / Vec3.length w) = c / Vec3.length w * w.y
      ring
    · show c * (w.z / Vec3.length w) = c / Vec3.length w * w.z
      ring
  refine ⟨rfl, rfl, ?_⟩
  have h1 : (ManoeuvreNode.propagateOrbit solveK p v t).1 =
      Vec3.smul
        (ManoeuvreNode.propagatedRadius solveK
            (ManoeuvreNode.calculateOrbitalElements p v (GRAVITATIONAL_PARAMETERS_sun / 1e9)).a
            (ManoeuvreNode.calculateOrbitalElements p v (GRAVITATIONAL_PARAMETERS_sun / 1e9)).e
            t * AU_TO_KM)
        (Vec3.normalize p) := rfl
  rw [h1, key]

/-!
## Claim C3
-/

/-- Claim C3 counterexample: the total delta-V is not increasing in |r2 − r1|.
For r1 = 1 km, the transfer to r2 = 10000 km (|r2 − r1| = 9999) needs strictly
less total delta-V than the transfer to r2 = 16 km (|r2 − r1| = 15): the
Hohmann total has an interior maximum near r2/r1 ≈ 15.6 and decreases beyond. -/
theorem C3_counterexample :
    (calculateHohmannTransfer 1 10000).total < (calculateHohmannTransfer 1 16).total := by
  have hmu : GRAVITATIONAL_PARAMETERS_sun / 1e9 = 132712440018 := by
    norm_num [GRAVITATIONAL_PARAMETERS_sun]
  have hM : (0:ℝ) ≤ 132712440018 := by norm_num
  simp only [calculateHohmannTransfer, hmu]
  have e1 : (132712440018:ℝ) * (2 / 1 - 1 / ((1 + 10000) / 2))
      = 132712440018 * (20000 / 10001) := by norm_num
  have e2 : (132712440018:ℝ) / 1 = 132712440018 * 1 := by norm_num
  have e3 : (132712440018:ℝ) / 10000 = 132712440018 * (1 / 10000) := by norm_num
  have e4 : (132712440018:ℝ) * (2 / 10000 - 1 / ((1 + 10000) / 2))
      = 132712440018 * (1 / 50005000) := by norm_num
  have e5 : (132712440018:ℝ) * (2 / 1 - 1 / ((1 + 16) / 2))
      = 132712440018 * (32 / 17) := by norm_num
  have e6 : (132712440018:ℝ) / 16 = 132712440018 * (1 / 16) := by norm_num
  have e7 : (132712440018:ℝ) * (2 / 16 - 1 / ((1 + 16) / 2))
      = 132712440018 * (1 / 136) := by norm_num
  rw [e1, e2, e3, e4, e5, e6, e7,
    Real.sqrt_mul hM (20000 / 10001), Real.sqrt_mul hM 1, Real.sqrt_mul hM (1 / 10000),
    Real.sqrt_mul hM (1 / 50005000), Real.sqrt_mul hM (32 / 17), Real.sqrt_mul hM (1 / 16),
    Real.sqrt_mul hM (1 / 136), Real.sqrt_one]
  set s := Real.sqrt 132712440018 with hsdef
  have hs : (0:ℝ) < s := Real.sqrt_pos.2 (by norm_num)
  have h1le : (1:ℝ) ≤ Real.sqrt (20000 / 10001) :=
    (Real.le_sqrt (by norm_num) (by norm_num)).2 (by norm_num)
  have h1le17 : (1:ℝ) ≤ Real.sqrt (32 / 17) :=
    (Real.le_sqrt (by norm_num) (by norm_num)).2 (by norm_num)
  have hmono1 : Real.sqrt (1 / 50005000) ≤ Real.sqrt (1 / 10000) :=
    Real.sqrt_le_sqrt (by norm_num)
  have hmono2 : Real.sqrt (1 / 136) ≤ Real.sqrt (1 / 16) :=
    Real.sqrt_le_sqrt (by norm_num)
  have ha1 : s * 1 ≤ s * Real.sqrt (20000 / 10001) :=
    mul_le_mul_of_nonneg_left h1le hs.le
  have ha2 : s * Real.sqrt (1 / 50005000) ≤ s * Real.sqrt (1 / 10000) :=
    mul_le_mul_of_nonneg_left hmono1 hs.le
  have ha3 : s * 1 ≤ s * Real.sqrt (32 / 17) :=
    mul_le_mul_of_nonneg_left h1le17 hs.le
  have ha4 : s * Real.sqrt (1 / 136) ≤ s * Real.sqrt (1 / 16) :=
    mul_le_mul_of_nonneg_left hmono2 hs.le
  rw [abs_of_nonneg (sub_nonneg.2 ha1), abs_of_nonneg (sub_nonneg.2 ha2),
    abs_of_nonneg (sub_nonneg.2 ha3), abs_of_nonneg (sub_nonneg.2 ha4)]
  have hc1 : s * Real.sqrt (20000 / 10001) ≤ s * (14142 / 10000) :=
    mul_le_mul_of_nonneg_left ((Real.sqrt_le_left (by norm_num)).2 (by norm_num)) hs.le
  have hc2u : s * Real.sqrt (1 / 10000) ≤ s * (1 / 100) :=
    mul_le_mul_of_nonneg_left ((Real.sqrt_le_left (by norm_num)).2 (by norm_num)) hs.le
  have hc2l : 0 ≤ s * Real.sqrt (1 / 50005000) := mul_nonneg hs.le (Real.sqrt_nonneg _)
  have hc3 : s * (137 / 100) ≤ s * Real.sqrt (32 / 17) :=
    mul_le_mul_of_nonneg_left ((Real.le_sqrt (by norm_num) (by norm_num)).2 (by norm_num)) hs.le
  have hc4l : s * (1 / 4) ≤ s * Real.sqrt (1 / 16) :=
    mul_le_mul_of_nonneg_left ((Real.le_sqrt (by norm_num) (by norm_num)).2 (by norm_num)) hs.le
  have hc4u : s * Real.sqrt (1 / 136) ≤ s * (86 / 1000) :=
    mul_le_mul_of_nonneg_left ((Real.sqrt_le_left (by norm_num)).2 (by norm_num)) hs.le
  linarith

/-- Claim C3 (amended): at equal radii the Hohmann calculator returns total
delta-V exactly 0 and a transfer time of exactly half the circular orbital
period at radius r (the `period` the orbital-elements routine assigns to the
circular state of radius r km); and for r2 ≠ r the total delta-V is strictly
positive, so r2 = r is the global minimum — but the total is NOT increasing
in |r2 − r1| (see the counterexample). -/
theorem C3_hohmann_same_radius (r r2 : ℝ) (hr : 0 < r) (hr2 : 0 < r2) :
    (calculateHohmannTransfer r r).total = 0 ∧
    2 * (calculateHohmannTransfer r r).transferTime =
      (calculateOrbitalElements (some ⟨r / AU_TO_KM, 0, 0⟩)
        (some ⟨0, Real.sqrt (GRAVITATIONAL_PARAMETERS_sun / 1e9 / r), 0⟩)
        (GRAVITATIONAL_PARAMETERS_sun / 1e9)).period ∧
    (r2 ≠ r → 0 < (calculateHohmannTransfer r r2).total) := by
  have hmu : (0:ℝ) < GRAVITATIONAL_PARAMETERS_sun / 1e9 := by
    norm_num [GRAVITATIONAL_PARAMETERS_sun]
  have hA : (0:ℝ) < AU_TO_KM := by norm_num [AU_TO_KM]
  have hrne : r ≠ 0 := hr.ne'
  have hmune : GRAVITATIONAL_PARAMETERS_sun / 1e9 ≠ 0 := hmu.ne'
  refine ⟨?_, ?_, ?_⟩
  · simp only [calculateHohmannTransfer]
    have harg : GRAVITATIONAL_PARAMETERS_sun / 1e9 * (2 / r - 1 / ((r + r) / 2))
        = GRAVITATIONAL_PARAMETERS_sun / 1e9 / r := by
      field_simp
      ring
    rw [harg]
    simp
  · simp only [calculateHohmannTransfer, calculateOrbitalElements]
    rw [if_neg hmune]
    have hlenp : Vec3.length ⟨r / AU_TO_KM, 0, 0⟩ = r / AU_TO_KM := by
      unfold Vec3.length
      rw [show (r / AU_TO_KM) ^ 2 + 0 ^ 2 + 0 ^ 2 = (r / AU_TO_KM) ^ 2 by ring,
        Real.sqrt_sq (by positivity)]
    have hrkm : Vec3.length (⟨r / AU_TO_KM, 0, 0⟩ : Vec3) * AU_TO_KM = r := by
      rw [hlenp]
      field_simp
    rw [hrkm, if_neg hrne]
    have hlenv : Vec3.length ⟨0, Real.sqrt (GRAVITATIONAL_PARAMETERS_sun / 1e9 / r), 0⟩
        = Real.sqrt (GRAVITATIONAL_PARAMETERS_sun / 1e9 / r) := by
      unfold Vec3.length
      rw [show (0:ℝ) ^ 2 + Real.sqrt (GRAVITATIONAL_PARAMETERS_sun / 1e9 / r) ^ 2 + 0 ^ 2
          = Real.sqrt (GRAVITATIONAL_PARAMETERS_sun / 1e9 / r) ^ 2 by ring,
        Real.sqrt_sq (Real.sqrt_nonneg _)]
    rw [hlenv,
      Real.mul_self_sqrt (by positivity : (0:ℝ) ≤ GRAVITATIONAL_PARAMETERS_sun / 1e9 / r)]
    have hen : GRAVITATIONAL_PARAMETERS_sun / 1e9 / r / 2 - GRAVITATIONAL_PARAMETERS_sun / 1e9 / r
        = -(GRAVITATIONAL_PARAMETERS_sun / 1e9 / (2 * r)) := by
      field_simp
      ring
    rw [hen]
    have hG : (GRAVITATIONAL_PARAMETERS_sun : ℝ) ≠ 0 := by
      norm_num [GRAVITATIONAL_PARAMETERS_sun]
    have ha : -(GRAVITATIONAL_PARAMETERS_sun / 1e9)
        / (2 * -(GRAVITATIONAL_PARAMETERS_sun / 1e9 / (2 * r))) = r := by
      field_simp
      ring
    rw [ha, if_pos hr]
    have hhalf : (r + r) / 2 = r := by ring
    rw [hhalf]
    show 2 * (Real.pi * Real.sqrt (r ^ 3 / (GRAVITATIONAL_PARAMETERS_sun / 1e9)) / 86400)
      = 2 * Real.pi * Real.sqrt (r ^ 3 / (GRAVITATIONAL_PARAMETERS_sun / 1e9)) / 86400
    ring
  · intro hne
    simp only [calculateHohmannTransfer]
    have hhalf2 : 1 / ((r + r2) / 2) = 2 / (r + r2) := by
      rw [div_div_eq_mul_div, one_mul]
    rw [hhalf2]
    have hsum : (0:ℝ) < r + r2 := by linarith
    have hY : GRAVITATIONAL_PARAMETERS_sun / 1e9 / r
        = GRAVITATIONAL_PARAMETERS_sun / 1e9 * (1 / r) := by rw [mul_one_div]
    have hkey : Real.sqrt (GRAVITATIONAL_PARAMETERS_sun / 1e9 * (2 / r - 2 / (r + r2)))
        ≠ Real.sqrt (GRAVITATIONAL_PARAMETERS_sun / 1e9 / r) := by
      rcases lt_or_gt_of_ne hne with hlt | hgt
      · have h2 : (0:ℝ) < 2 / r - 2 / (r + r2) := by
          have hx : (2:ℝ) / (r + r2) < 2 / r := by
            rw [div_lt_div_iff hsum hr]
            linarith
          linarith
        have h3 : 2 / r - 2 / (r + r2) < 1 / r := by
          have h1 : (1:ℝ) / r < 2 / (r + r2) := by
            rw [div_lt_div_iff hr hsum]
            linarith
          have h2r : (2:ℝ) / r - 1 / r = 1 / r := by ring
          linarith
        apply ne_of_lt
        rw [hY]
        exact Real.sqrt_lt_sqrt (mul_pos hmu h2).le (mul_lt_mul_of_pos_left h3 hmu)
      · have h3 : 1 / r < 2 / r - 2 / (r + r2) := by
          have h1 : (2:ℝ) / (r + r2) < 1 / r := by
            rw [div_lt_div_iff hsum hr]
            linarith
          have h2r : (2:ℝ) / r - 1 / r = 1 / r := by ring
          linarith
        apply ne_of_gt
        rw [hY]
        refine Real.sqrt_lt_sqrt ?_ (mul_lt_mul_of_pos_left h3 hmu)
        exact (mul_pos hmu (by positivity : (0:ℝ) < 1 / r)).le
    have habs : 0 < |Real.sqrt (GRAVITATIONAL_PARAMETERS_sun / 1e9 * (2 / r - 2 / (r + r2)))
        - Real.sqrt (GRAVITATIONAL_PARAMETERS_sun / 1e9 / r)| :=
      abs_pos.2 (sub_ne_zero.2 hkey)
    have habs2 : 0 ≤ |Real.sqrt (GRAVITATIONAL_PARAMETERS_sun / 1e9 / r2)
        - Real.sqrt (GRAVITATIONAL_PARAMETERS_sun / 1e9 * (2 / r2 - 2 / (r + r2)))| :=
      abs_nonneg _
    linarith

/-- Claim C3 witness: the amended statement instantiated at r = 1 km,
r2 = 2 km. -/
theorem C3_hohmann_same_radius_witness :
    (calculateHohmannTransfer 1 1).total = 0 ∧
    2 * (calculateHohmannTransfer 1 1).transferTime =
      (calculateOrbitalElements (some ⟨1 / AU_TO_KM, 0, 0⟩)
        (some ⟨0, Real.sqrt (GRAVITATIONAL_PARAMETERS_sun / 1e9 / 1), 0⟩)
        (GRAVITATIONAL_PARAMETERS_sun / 1e9)).period ∧
    0 < (calculateHohmannTransfer 1 2).total :=
  ⟨(C3_hohmann_same_radius 1 2 (by norm_num) (by norm_num)).1,
   (C3_hohmann_same_radius 1 2 (by norm_num) (by norm_num)).2.1,
   (C3_hohmann_same_radius 1 2 (by norm_num) (by norm_num)).2.2 (by norm_num)⟩

end InterplanetarySim
